import Mathlib

/-!
# sshesame: the bootstrap of `main.go`

`main.go` is the whole of the sources at hand: flag parsing, the initial config
load, the SIGHUP reload goroutine, listen-address resolution, the listeners, the
optional metrics endpoint and the accept loop.

The embedding is state passing.  A `State` holds the variables of `main` that
outlive a statement (the object `cfg` points to, `configString`, `err`), the
exit status once `os.Exit` was called, and a record of every call `main` makes
to the outside world (log lines, `os.ReadFile`, `cfg.load`, `sshutils.Listen`,
`http.Handle`, `http.ListenAndServe`, `go handleConnection`).

The sequential part of `main` (lines 34-103) is the function `main_startup`.
The three pieces of `main` that run once per outside stimulus are one function
each: `main_reload` (one iteration of the goroutine of lines 49-62),
`main_metrics` (the goroutine of lines 98-102) and `main_accept` (one iteration
of the loop of lines 105-112).  `step` dispatches an `Event` to them and is the
identity once the process has exited.

What the outside world answers is not computed but supplied: `Env` for the
calls of the startup, the payload of an `Event` for the calls made later.

Goroutines are interleaved at the grain of these functions: events are handled
one at a time, each iteration of a loop as a whole.  `main_startup` is the
startup with no signal on the way; `main_startup_with` is the startup with
reloads handled between `signal.Notify` (line 63) and line 95.  The goroutines that call `listener.Accept()` (lines 85-90) and
the channel `incommingConnections` appear only through what the main loop
receives, the payload of `Event.accepted`.
-/

namespace Sshesame

/-! ## Values -/

/-- Go `error` values, identified by their message.  The nil error is `none`
of `Option Error`. -/
abbrev Error := String

/-- A Go slice of strings as far as `len` and `range` can tell: `none` is the
nil slice (a field absent from the config file), `some xs` a slice with the
elements `xs`, possibly none. -/
abbrev Slice (α : Type) := Option (List α)

/-- Go `len` on a slice: the nil slice has length 0. -/
def Slice.len {α : Type} : Slice α → Nat
  | none => 0
  | some xs => xs.length

/-- The elements `range` visits, in order. -/
def Slice.elems {α : Type} : Slice α → List α
  | none => []
  | some xs => xs

/-- Modelled from the spec: the declaration of `config` (with its `Server`
part) is missing from the sources.  `Server` carries the two fields `main`
reads: the legacy single listen address and the newer list of listen
addresses. -/
structure serverConfig where
  ListenAddress : String
  ListenAddresses : Slice String
  deriving DecidableEq, Repr

/-- Modelled from the spec: the declaration of `config` (with its `Logging`
part) is missing from the sources.  `Logging` carries the one field `main`
reads, the optional metrics listen address. -/
structure loggingConfig where
  MetricsAddress : String
  deriving DecidableEq, Repr

/-- Modelled from the spec: the declaration of `config` is missing from the
sources.  The fields are the ones `main` reads: `Server`, `Logging` and the
`sshConfig` pointer handed to `sshutils.Listen` (an identifier, `none` for
nil). -/
structure config where
  Server : serverConfig
  Logging : loggingConfig
  sshConfig : Option Nat
  deriving DecidableEq, Repr

/-- The value of `&config{}` (line 34): every field zero. -/
def config.zero : config :=
  { Server := { ListenAddress := "", ListenAddresses := none },
    Logging := { MetricsAddress := "" },
    sshConfig := none }

/-- A `*config` value: the address of a `config` object. -/
structure ConfigPtr where
  addr : Nat
  deriving DecidableEq, Repr

/-- The three loggers of lines 17-27. -/
inductive Logger where
  | infoLogger
  | warningLogger
  | errorLogger
  deriving DecidableEq, Repr

/-- An argument of a `Printf`/`Fatalf` call: an `error` value (possibly nil),
a string or address, or a signal. -/
inductive Arg where
  | err (e : Option Error)
  | str (s : String)
  | sig (name : String)
  deriving DecidableEq, Repr

/-- One call of `Printf` or `Fatalf`: which logger, the format, the
arguments. -/
structure LogEntry where
  logger : Logger
  format : String
  args : List Arg
  deriving DecidableEq, Repr

/-- What `sshutils.Listen` returns on success; `addr` is `listener.Addr()`. -/
structure Listener where
  addr : String
  deriving DecidableEq, Repr

/-- The struct of lines 73-76.  `conn` is a pointer (`none` for nil), `err`
an `error` (`none` for nil). -/
structure acceptedConnection where
  conn : Option Nat
  err : Option Error
  deriving DecidableEq, Repr

/-- One `go handleConnection(conn, cfg)`: the two arguments. -/
structure Spawned where
  conn : Option Nat
  cfg : ConfigPtr
  deriving DecidableEq, Repr

/-! ## State -/

/-- The state of the process. -/
structure State where
  /-- The variable `cfg` of line 34, a pointer.  `main` never assigns it again. -/
  cfg : ConfigPtr
  /-- The object `cfg` points to, the only `config` object `main` allocates. -/
  cfgObj : config
  /-- The variable `configString` of line 35, captured by the reload goroutine. -/
  configString : String
  /-- The variable `err` of line 43, the only `err` in scope at line 108. -/
  err : Option Error
  /-- The status passed to `os.Exit`, once it was called. -/
  exited : Option Nat
  /-- Every `Printf` and `Fatalf`, oldest first. -/
  log : List LogEntry
  /-- The paths given to `os.ReadFile`, oldest first. -/
  readCalls : List String
  /-- The arguments of every `cfg.load`, oldest first. -/
  loadCalls : List (String × String)
  /-- The addresses given to `sshutils.Listen`, oldest first. -/
  listenCalls : List String
  /-- The listeners bound so far; each has its accept goroutine (lines 85-90). -/
  listeners : List Listener
  /-- The patterns registered with `http.Handle`. -/
  httpHandlers : List String
  /-- The goroutine of lines 98-102 was started and has not yet called
  `http.ListenAndServe`. -/
  metricsPending : Bool
  /-- The addresses given to `http.ListenAndServe`, oldest first. -/
  httpServers : List String
  /-- Every `go handleConnection(...)`, oldest first. -/
  handlers : List Spawned
  deriving DecidableEq, Repr

/-- The state at line 34: `cfg := &config{}`, `configString := ""`, nothing
done yet. -/
def State.init : State :=
  { cfg := { addr := 0 }, cfgObj := config.zero, configString := "", err := none, exited := none,
    log := [], readCalls := [], loadCalls := [], listenCalls := [],
    listeners := [], httpHandlers := [], metricsPending := false,
    httpServers := [], handlers := [] }

/-- The config a holder of the pointer `p` reads through it in state `s`:
the object behind `cfg` when `p` is that pointer, nothing otherwise (`main`
allocates no other `config`). -/
def State.deref (s : State) (p : ConfigPtr) : Option config :=
  if p = s.cfg then some s.cfgObj else none

/-- `logger.Printf(format, args...)`. -/
def State.printf (s : State) (l : Logger) (format : String) (args : List Arg) : State :=
  { s with log := s.log ++ [{ logger := l, format := format, args := args }] }

/-- `logger.Fatalf(format, args...)`: `Printf` followed by `os.Exit(1)`. -/
def State.fatalf (s : State) (l : Logger) (format : String) (args : List Arg) : State :=
  { s.printf l format args with exited := some 1 }

/-! ## The outside world -/

/-- The answers of the outside world during startup.

* `readFile path` is the pair `os.ReadFile` returns: the bytes read (as a
  string; empty when the file could not be opened) and the error.
* `loader configString dataDir` is what parsing and validating the text gives;
  see `config.load`.
* `listen n addr sshConfig` is what `sshutils.Listen(addr, sshConfig)` returns
  when `n` listeners are already bound. -/
structure Env where
  readFile : String → String × Option Error
  loader : String → String → Except Error config
  listen : Nat → String → Option Nat → Except Error Listener

/-- Modelled from the spec: `cfg.load` (method of `config`, not in the sources).
The spec: it parses and validates the raw text and "on success atomically
replaces the process-wide current snapshot; on failure the previous snapshot
remains active and the error is reported".  The parser is the parameter
`loader`.  The result is the new content of the object `cfg` points to and
the returned `error`; `main` reads the loaded config through `cfg` itself
(lines 67-70, 80, 95), so the object behind `cfg` is what a successful load
replaces. -/
def config.load (loader : String → String → Except Error config)
    (cfg : config) (configString dataDir : String) : config × Option Error :=
  match loader configString dataDir with
  | .ok c => (c, none)
  | .error e => (cfg, some e)

/-! ## Startup: lines 34-103 -/

/-- Lines 36-42: read the config file when a path was given. -/
def readConfig (env : Env) (configFile : String) (s : State) : State :=
  if configFile ≠ "" then
    let s := { s with readCalls := s.readCalls ++ [configFile] }
    let configBytes := (env.readFile configFile).1
    let err := (env.readFile configFile).2
    if err ≠ none then
      s.fatalf .errorLogger "Failed to read config file: %v" [.err err]
    else
      { s with configString := configBytes }
  else s

/-- Lines 43-46: the initial `cfg.load`. -/
def initialLoad (env : Env) (dataDir : String) (s : State) : State :=
  let r := config.load env.loader s.cfgObj s.configString dataDir
  let s := { s with cfgObj := r.1, err := r.2,
                    loadCalls := s.loadCalls ++ [(s.configString, dataDir)] }
  if s.err ≠ none then
    s.fatalf .errorLogger "Failed to load config: %v" [.err s.err]
  else s

/-- Lines 65-71: the listen addresses `main` binds. -/
def resolveListenAddresses (cfg : config) : List String :=
  if Slice.len cfg.Server.ListenAddresses > 0 then
    Slice.elems cfg.Server.ListenAddresses
  else
    [cfg.Server.ListenAddress]

/-- Lines 79-93: bind the addresses in order; the first failure is fatal. -/
def bindListeners (env : Env) : List String → State → State
  | [], s => s
  | addr :: rest, s =>
    let s := { s with listenCalls := s.listenCalls ++ [addr] }
    match env.listen s.listeners.length addr s.cfgObj.sshConfig with
    | .error e =>
      s.fatalf .errorLogger "Failed to listen for connections on %v: %v"
        [.str addr, .err (some e)]
    | .ok listener =>
      let s := { s with listeners := s.listeners ++ [listener] }
      bindListeners env rest (s.printf .infoLogger "Listening on %v" [.str listener.addr])

/-- Lines 95-103: register the handler and start the metrics goroutine when a
metrics address is configured. -/
def startMetrics (s : State) : State :=
  if s.cfgObj.Logging.MetricsAddress ≠ "" then
    let s := { s with httpHandlers := s.httpHandlers ++ ["/metrics"] }
    let s := s.printf .infoLogger "Serving metrics on %v" [.str s.cfgObj.Logging.MetricsAddress]
    { s with metricsPending := true }
  else s

/-- Lines 34-103 of `main`, up to the accept loop.  `Fatalf` ends the process,
so nothing after it runs. -/
def main_startup (env : Env) (configFile dataDir : String) : State :=
  let s := readConfig env configFile State.init
  if s.exited ≠ none then s else
  let s := initialLoad env dataDir s
  if s.exited ≠ none then s else
  let s := bindListeners env (resolveListenAddresses s.cfgObj) s
  if s.exited ≠ none then s else
  startMetrics s

/-! ## After startup: the goroutines and the accept loop -/

/-- One iteration of the reload goroutine, lines 50-61, for one signal.
`readResult` is the pair `os.ReadFile(*configFile)` returns this time.  The
`err` of lines 52-58 is declared by the `:=` of line 52 and is not the `err`
of line 43. -/
def main_reload (env : Env) (configFile dataDir : String)
    (readResult : String × Option Error) (s : State) : State :=
  let s := s.printf .infoLogger "Reloading config due to %s" [.sig "hangup"]
  let s := { s with readCalls := s.readCalls ++ [configFile] }
  let configBytes := readResult.1
  let err := readResult.2
  let s := if err ≠ none then
      s.printf .warningLogger "Failed to read config file: %v" [.err err]
    else s
  let s := { s with configString := configBytes }
  let r := config.load env.loader s.cfgObj s.configString dataDir
  let s := { s with cfgObj := r.1, loadCalls := s.loadCalls ++ [(s.configString, dataDir)] }
  let err := r.2
  if err ≠ none then
    s.printf .warningLogger "Failed to reload config: %v" [.err err]
  else s

/-- The goroutine of lines 98-102.  `result` is what `http.ListenAndServe`
returns (`none` while it is serving). -/
def main_metrics (result : Option Error) (s : State) : State :=
  if s.metricsPending then
    let s := { s with metricsPending := false,
                      httpServers := s.httpServers ++ [s.cfgObj.Logging.MetricsAddress] }
    if result ≠ none then
      s.fatalf .errorLogger "Failed to serve metrics: %v" [.err result]
    else s
  else s

/-- One iteration of the loop of lines 105-112, for one value received from
`incommingConnections`. -/
def main_accept (maybeConn : acceptedConnection) (s : State) : State :=
  if maybeConn.err ≠ none then
    s.printf .warningLogger "Failed to accept connection: %v" [.err s.err]
  else
    { s with handlers := s.handlers ++ [{ conn := maybeConn.conn, cfg := s.cfg }] }

/-- The loop of lines 105-112 over the values received, in order. -/
def main_acceptLoop : List acceptedConnection → State → State
  | [], s => s
  | maybeConn :: rest, s => main_acceptLoop rest (main_accept maybeConn s)

/-- What can happen to the process once startup is over. -/
inductive Event where
  /-- SIGHUP is delivered; the payload is what `os.ReadFile` returns. -/
  | sighup (readResult : String × Option Error)
  /-- The main loop receives a value from `incommingConnections`. -/
  | accepted (maybeConn : acceptedConnection)
  /-- The metrics goroutine runs; the payload is what `http.ListenAndServe`
  returns. -/
  | metrics (result : Option Error)

/-- One event.  A process that has exited does nothing any more. -/
def step (env : Env) (configFile dataDir : String) (s : State) (ev : Event) : State :=
  if s.exited ≠ none then s else
  match ev with
  | .sighup readResult => main_reload env configFile dataDir readResult s
  | .accepted maybeConn => main_accept maybeConn s
  | .metrics result => main_metrics result s

/-- A sequence of events, oldest first. -/
def run (env : Env) (configFile dataDir : String) (s : State) (evs : List Event) : State :=
  evs.foldl (step env configFile dataDir) s

/-! ## Startup with reloads in between

From `signal.Notify` (line 63) on, the reload goroutine can handle a SIGHUP
while `main` is still starting. -/

/-- The reload goroutine handling several signals in a row, oldest first; each
entry is what `os.ReadFile` returns for that signal. -/
def main_reloads (env : Env) (configFile dataDir : String) :
    List (String × Option Error) → State → State
  | [], s => s
  | readResult :: rest, s =>
    main_reloads env configFile dataDir rest (main_reload env configFile dataDir readResult s)

/-- Lines 79-93 with reloads in between: the reloads at position `i` of
`during` are handled just before the `sshutils.Listen` call of iteration `i`
(none where `during` has no entry). -/
def bindListenersWith (env : Env) (configFile dataDir : String) :
    List String → List (List (String × Option Error)) → State → State
  | [], _, s => s
  | addr :: rest, during, s =>
    let s := main_reloads env configFile dataDir (during.headD []) s
    let s := { s with listenCalls := s.listenCalls ++ [addr] }
    match env.listen s.listeners.length addr s.cfgObj.sshConfig with
    | .error e =>
      s.fatalf .errorLogger "Failed to listen for connections on %v: %v"
        [.str addr, .err (some e)]
    | .ok listener =>
      let s := { s with listeners := s.listeners ++ [listener] }
      bindListenersWith env configFile dataDir rest during.tail
        (s.printf .infoLogger "Listening on %v" [.str listener.addr])

/-- Lines 34-103 of `main` with the reloads handled during startup: `early`
between `signal.Notify` (line 63) and line 67, `during` before the
`sshutils.Listen` calls, `late` between the last listener (line 93) and the
test of line 95.  With no reloads this is `main_startup`. -/
def main_startup_with (env : Env) (configFile dataDir : String)
    (early : List (String × Option Error)) (during : List (List (String × Option Error)))
    (late : List (String × Option Error)) : State :=
  let s := readConfig env configFile State.init
  if s.exited ≠ none then s else
  let s := initialLoad env dataDir s
  if s.exited ≠ none then s else
  let s := main_reloads env configFile dataDir early s
  let s := bindListenersWith env configFile dataDir (resolveListenAddresses s.cfgObj) during s
  if s.exited ≠ none then s else
  let s := main_reloads env configFile dataDir late s
  startMetrics s

/-! ## A concrete environment

Used to evaluate the definitions on concrete inputs. -/

/-- The config the sample loader gives for the empty text. -/
def demoDefault : config :=
  { Server := { ListenAddress := "127.0.0.1:2022", ListenAddresses := none },
    Logging := { MetricsAddress := "" },
    sshConfig := some 1 }

/-- The config the sample loader gives for the text `custom`. -/
def demoCustom : config :=
  { Server := { ListenAddress := "127.0.0.1:2022", ListenAddresses := some ["0.0.0.0:22", "[::]:22"] },
    Logging := { MetricsAddress := "127.0.0.1:9000" },
    sshConfig := some 2 }

/-- The config the sample loader gives for the text `other`. -/
def demoOther : config :=
  { Server := { ListenAddress := "10.0.0.1:22", ListenAddresses := some [] },
    Logging := { MetricsAddress := "" },
    sshConfig := some 3 }

/-- A sample loader: three texts load, every other text is rejected. -/
def demoLoader (configString _dataDir : String) : Except Error config :=
  if configString = "" then .ok demoDefault
  else if configString = "custom" then .ok demoCustom
  else if configString = "other" then .ok demoOther
  else .error "yaml: unmarshal errors"

/-- A sample file system: one readable file. -/
def demoReadFile (path : String) : String × Option Error :=
  if path = "/etc/sshesame.yaml" then ("custom", none)
  else ("", some "open: no such file or directory")

/-- A sample network: every address binds except `[::]:22`. -/
def demoListen (_n : Nat) (addr : String) (_sshConfig : Option Nat) : Except Error Listener :=
  if addr = "[::]:22" then .error "listen tcp: address already in use"
  else .ok { addr := addr }

/-- A sample network where every address binds. -/
def demoListenAll (_n : Nat) (addr : String) (_sshConfig : Option Nat) : Except Error Listener :=
  .ok { addr := addr }

/-- Sample environment: the second listen address of `custom` fails. -/
def demoEnv : Env :=
  { readFile := demoReadFile, loader := demoLoader, listen := demoListen }

/-- Sample environment where every address binds. -/
def demoEnvAll : Env :=
  { readFile := demoReadFile, loader := demoLoader, listen := demoListenAll }

/-! ## Basic facts -/

/-- A process that has exited ignores every event. -/
theorem step_of_exited (env : Env) (configFile dataDir : String) (s : State) (ev : Event)
    (h : s.exited ≠ none) : step env configFile dataDir s ev = s := by
  simp [step, h]

/-- A process that has exited ignores every sequence of events. -/
theorem run_of_exited (env : Env) (configFile dataDir : String) (evs : List Event) :
    ∀ s : State, s.exited ≠ none → run env configFile dataDir s evs = s := by
  induction evs with
  | nil => intro s _; rfl
  | cons ev evs ih =>
    intro s h
    simp only [run, List.foldl_cons] at ih ⊢
    rw [step_of_exited env configFile dataDir s ev h]
    exact ih s h

/-- Running a sequence of events handles the oldest first. -/
theorem run_cons (env : Env) (configFile dataDir : String) (s : State) (ev : Event)
    (evs : List Event) :
    run env configFile dataDir s (ev :: evs)
      = run env configFile dataDir (step env configFile dataDir s ev) evs := rfl

/-- Running two sequences of events one after the other. -/
theorem run_append (env : Env) (configFile dataDir : String) (s : State)
    (evs₁ evs₂ : List Event) :
    run env configFile dataDir s (evs₁ ++ evs₂)
      = run env configFile dataDir (run env configFile dataDir s evs₁) evs₂ := by
  simp [run, List.foldl_append]

/-- The fields a reload leaves alone. -/
theorem main_reload_frame (env : Env) (configFile dataDir : String)
    (readResult : String × Option Error) (s : State) :
    let s' := main_reload env configFile dataDir readResult s
    s'.cfg = s.cfg ∧ s'.err = s.err ∧ s'.exited = s.exited ∧ s'.handlers = s.handlers ∧
    s'.listenCalls = s.listenCalls ∧ s'.listeners = s.listeners ∧
    s'.httpHandlers = s.httpHandlers ∧ s'.httpServers = s.httpServers ∧
    s'.metricsPending = s.metricsPending := by
  simp only [main_reload, State.printf]
  split <;> split <;> simp

/-- What a reload does to the object behind `cfg`: the outcome of `cfg.load`
on the bytes just read. -/
theorem main_reload_cfgObj (env : Env) (configFile dataDir : String)
    (readResult : String × Option Error) (s : State) :
    (main_reload env configFile dataDir readResult s).cfgObj
      = (config.load env.loader s.cfgObj readResult.1 dataDir).1 := by
  simp only [main_reload, State.printf]
  split <;> split <;> simp

/-- The fields one accept leaves alone. -/
theorem main_accept_frame (maybeConn : acceptedConnection) (s : State) :
    let s' := main_accept maybeConn s
    s'.cfg = s.cfg ∧ s'.cfgObj = s.cfgObj ∧ s'.err = s.err ∧ s'.exited = s.exited ∧
    s'.listenCalls = s.listenCalls ∧ s'.httpHandlers = s.httpHandlers ∧
    s'.httpServers = s.httpServers ∧ s'.metricsPending = s.metricsPending := by
  simp only [main_accept, State.printf]
  split <;> simp

/-- The fields the metrics goroutine leaves alone. -/
theorem main_metrics_frame (result : Option Error) (s : State) :
    let s' := main_metrics result s
    s'.cfg = s.cfg ∧ s'.cfgObj = s.cfgObj ∧ s'.err = s.err ∧ s'.handlers = s.handlers ∧
    s'.listenCalls = s.listenCalls ∧ s'.httpHandlers = s.httpHandlers := by
  simp only [main_metrics, State.printf, State.fatalf]
  split
  · split <;> simp
  · simp

/-- No event changes the pointer `cfg` or the variable `err` of line 43. -/
theorem step_cfg_err (env : Env) (configFile dataDir : String) (s : State) (ev : Event) :
    (step env configFile dataDir s ev).cfg = s.cfg ∧
    (step env configFile dataDir s ev).err = s.err := by
  unfold step
  split
  · simp
  · cases ev with
    | sighup r =>
      have h := main_reload_frame env configFile dataDir r s
      exact ⟨h.1, h.2.1⟩
    | accepted m =>
      have h := main_accept_frame m s
      exact ⟨h.1, h.2.2.1⟩
    | metrics r =>
      have h := main_metrics_frame r s
      exact ⟨h.1, h.2.2.1⟩

/-- No sequence of events changes the pointer `cfg` or the variable `err` of
line 43. -/
theorem run_cfg_err (env : Env) (configFile dataDir : String) (evs : List Event) :
    ∀ s : State, (run env configFile dataDir s evs).cfg = s.cfg ∧
      (run env configFile dataDir s evs).err = s.err := by
  induction evs with
  | nil => intro s; exact ⟨rfl, rfl⟩
  | cons ev evs ih =>
    intro s
    rw [run_cons]
    have h1 := ih (step env configFile dataDir s ev)
    have h2 := step_cfg_err env configFile dataDir s ev
    exact ⟨h1.1.trans h2.1, h1.2.trans h2.2⟩

/-- Once exited, always exited: a process still running after some events
was running before them. -/
theorem run_running (env : Env) (configFile dataDir : String) (s : State)
    (evs : List Event) (h : (run env configFile dataDir s evs).exited = none) :
    s.exited = none := by
  by_contra hne
  rw [run_of_exited env configFile dataDir evs s hne] at h
  exact hne h

/-! ## Facts about the startup -/

/-- The fields binding the listeners leaves alone. -/
theorem bindListeners_frame (env : Env) : ∀ (addrs : List String) (s : State),
    (bindListeners env addrs s).cfg = s.cfg ∧
    (bindListeners env addrs s).cfgObj = s.cfgObj ∧
    (bindListeners env addrs s).err = s.err ∧
    (bindListeners env addrs s).handlers = s.handlers ∧
    (bindListeners env addrs s).loadCalls = s.loadCalls ∧
    (bindListeners env addrs s).httpHandlers = s.httpHandlers ∧
    (bindListeners env addrs s).httpServers = s.httpServers ∧
    (bindListeners env addrs s).metricsPending = s.metricsPending := by
  intro addrs
  induction addrs with
  | nil => intro s; simp [bindListeners]
  | cons addr rest ih =>
    intro s
    simp only [bindListeners]
    split
    · simp [State.fatalf, State.printf]
    · rename_i listener _
      have h := ih ((({ s with listenCalls := s.listenCalls ++ [addr],
                               listeners := s.listeners ++ [listener] } : State)).printf
                      .infoLogger "Listening on %v" [.str listener.addr])
      simpa [State.printf] using h

/-- When binding leaves the process running, every address was given to
`sshutils.Listen`, in order, and the process was running before. -/
theorem bindListeners_running (env : Env) : ∀ (addrs : List String) (s : State),
    (bindListeners env addrs s).exited = none →
    s.exited = none ∧ (bindListeners env addrs s).listenCalls = s.listenCalls ++ addrs := by
  intro addrs
  induction addrs with
  | nil => intro s h; simpa [bindListeners] using h
  | cons addr rest ih =>
    intro s
    simp only [bindListeners]
    split
    · simp [State.fatalf, State.printf]
    · rename_i listener _
      intro h
      have h2 := ih _ h
      simpa [State.printf] using h2

/-- When the address at position `j` cannot be bound, binding ends the process
with status 1 at some position `k ≤ j`, the first that fails: the addresses
given to `sshutils.Listen` are the first `k + 1`, `k` listeners are bound, and
the last log line is the error for the address at position `k`. -/
theorem bindListeners_fail (env : Env) : ∀ (addrs : List String) (s : State) (j : Nat)
    (a : String) (e : Error),
    addrs[j]? = some a →
    env.listen (s.listeners.length + j) a s.cfgObj.sshConfig = .error e →
    (bindListeners env addrs s).exited = some 1 ∧
    ∃ (k : Nat) (a' : String) (e' : Error), k ≤ j ∧ addrs[k]? = some a' ∧
      env.listen (s.listeners.length + k) a' s.cfgObj.sshConfig = .error e' ∧
      (bindListeners env addrs s).listenCalls = s.listenCalls ++ addrs.take (k + 1) ∧
      (bindListeners env addrs s).listeners.length = s.listeners.length + k ∧
      (bindListeners env addrs s).log.getLast? =
        some { logger := .errorLogger,
               format := "Failed to listen for connections on %v: %v",
               args := [.str a', .err (some e')] } := by
  intro addrs
  induction addrs with
  | nil => intro s j a e h; simp at h
  | cons addr rest ih =>
    intro s j a e hj hl
    cases hres : env.listen s.listeners.length addr s.cfgObj.sshConfig with
    | error e0 =>
      simp only [bindListeners, hres]
      refine ⟨by simp [State.fatalf], 0, addr, e0, Nat.zero_le _, by simp, by simpa using hres, ?_, ?_, ?_⟩
        <;> simp [State.fatalf, State.printf]
    | ok listener =>
      simp only [bindListeners, hres]
      cases j with
      | zero =>
        simp at hj
        subst hj
        simp [hres] at hl
      | succ j' =>
        simp only [List.getElem?_cons_succ] at hj
        have hl' : env.listen
            (((({ s with listenCalls := s.listenCalls ++ [addr],
                         listeners := s.listeners ++ [listener] } : State)).printf
                .infoLogger "Listening on %v" [.str listener.addr]).listeners.length + j') a
            ((({ s with listenCalls := s.listenCalls ++ [addr],
                        listeners := s.listeners ++ [listener] } : State)).printf
                .infoLogger "Listening on %v" [.str listener.addr]).cfgObj.sshConfig = .error e := by
          simp only [State.printf, List.length_append, List.length_singleton]
          rw [Nat.add_assoc, Nat.add_comm 1 j']
          exact hl
        obtain ⟨hex, k, a', e', hk, hak, hlk, hcalls, hlen, hlog⟩ := ih _ j' a e hj hl'
        refine ⟨hex, k + 1, a', e', Nat.succ_le_succ hk, by simpa using hak, ?_, ?_, ?_, hlog⟩
        · simp only [State.printf, List.length_append, List.length_singleton] at hlk
          rw [Nat.add_assoc, Nat.add_comm 1 k] at hlk
          exact hlk
        · simpa [State.printf] using hcalls
        · simp only [State.printf, List.length_append, List.length_singleton] at hlen ⊢
          omega

/-- Reading the config at startup succeeds (or is skipped): the state at
line 43. -/
theorem readConfig_ok (env : Env) (configFile : String)
    (hread : configFile = "" ∨ (env.readFile configFile).2 = none) :
    (readConfig env configFile State.init).exited = none ∧
    (readConfig env configFile State.init).cfg = State.init.cfg ∧
    (readConfig env configFile State.init).cfgObj = config.zero ∧
    (readConfig env configFile State.init).log = [] ∧
    (readConfig env configFile State.init).loadCalls = [] ∧
    (readConfig env configFile State.init).listenCalls = [] ∧
    (readConfig env configFile State.init).listeners = [] ∧
    (readConfig env configFile State.init).httpHandlers = [] ∧
    (readConfig env configFile State.init).httpServers = [] ∧
    (readConfig env configFile State.init).metricsPending = false ∧
    (readConfig env configFile State.init).handlers = [] := by
  unfold readConfig
  rcases hread with h | h
  · simp [h, State.init]
  · by_cases hc : configFile = ""
    · simp [hc, State.init]
    · simp [hc, h, State.init]

/-- The initial load succeeds with `c`: the state at line 47, and the rest of
the startup from there. -/
theorem startup_loaded (env : Env) (configFile dataDir : String) (c : config)
    (hread : configFile = "" ∨ (env.readFile configFile).2 = none)
    (hload : env.loader (readConfig env configFile State.init).configString dataDir = .ok c) :
    (initialLoad env dataDir (readConfig env configFile State.init)).exited = none ∧
    (initialLoad env dataDir (readConfig env configFile State.init)).cfgObj = c ∧
    (initialLoad env dataDir (readConfig env configFile State.init)).err = none ∧
    (initialLoad env dataDir (readConfig env configFile State.init)).log = [] ∧
    (initialLoad env dataDir (readConfig env configFile State.init)).listenCalls = [] ∧
    (initialLoad env dataDir (readConfig env configFile State.init)).listeners = [] ∧
    (initialLoad env dataDir (readConfig env configFile State.init)).httpHandlers = [] ∧
    (initialLoad env dataDir (readConfig env configFile State.init)).httpServers = [] ∧
    (initialLoad env dataDir (readConfig env configFile State.init)).metricsPending = false ∧
    (initialLoad env dataDir (readConfig env configFile State.init)).handlers = [] ∧
    main_startup env configFile dataDir =
      (if (bindListeners env (resolveListenAddresses c)
            (initialLoad env dataDir (readConfig env configFile State.init))).exited ≠ none
       then bindListeners env (resolveListenAddresses c)
            (initialLoad env dataDir (readConfig env configFile State.init))
       else startMetrics (bindListeners env (resolveListenAddresses c)
            (initialLoad env dataDir (readConfig env configFile State.init)))) := by
  obtain ⟨h1, _, h3, h4, h5, h6, h7, h8, h9, h10, h11⟩ := readConfig_ok env configFile hread
  have hi : initialLoad env dataDir (readConfig env configFile State.init)
      = { readConfig env configFile State.init with
            cfgObj := c, err := none,
            loadCalls := [((readConfig env configFile State.init).configString, dataDir)] } := by
    simp [initialLoad, config.load, hload, h5]
  refine ⟨?_, ?_, ?_, ?_, ?_, ?_, ?_, ?_, ?_, ?_, ?_⟩
  · rw [hi]; exact h1
  · rw [hi]
  · rw [hi]
  · rw [hi]; exact h4
  · rw [hi]; exact h6
  · rw [hi]; exact h7
  · rw [hi]; exact h8
  · rw [hi]; exact h9
  · rw [hi]; exact h10
  · rw [hi]; exact h11
  · have hc : (initialLoad env dataDir (readConfig env configFile State.init)).cfgObj = c := by
      rw [hi]
    have he : (initialLoad env dataDir (readConfig env configFile State.init)).exited = none := by
      rw [hi]; exact h1
    simp only [main_startup, h1, he, hc, ne_eq, not_true_eq_false, if_false]

/-- An initial load that leaves the process running returned no error. -/
theorem initialLoad_running_err (env : Env) (dataDir : String) (s : State)
    (h : (initialLoad env dataDir s).exited = none) :
    (initialLoad env dataDir s).err = none := by
  unfold initialLoad at h ⊢
  by_cases he : (config.load env.loader s.cfgObj s.configString dataDir).2 = none
  · simp [he]
  · simp [he, State.fatalf] at h

/-- A startup that leaves the process running has passed the initial load
with no error: `err` of line 43 is nil. -/
theorem main_startup_running_err (env : Env) (configFile dataDir : String)
    (h : (main_startup env configFile dataDir).exited = none) :
    (main_startup env configFile dataDir).err = none := by
  unfold main_startup at h ⊢
  simp only at h ⊢
  split at h
  · rename_i h1; exact absurd h h1
  · split at h
    · rename_i h2; exact absurd h h2
    · rename_i h1 h2
      have herr : (initialLoad env dataDir (readConfig env configFile State.init)).err = none :=
        initialLoad_running_err env dataDir _ (by simpa using h2)
      rw [if_neg h1, if_neg h2]
      have hb := (bindListeners_frame env
        (resolveListenAddresses (initialLoad env dataDir (readConfig env configFile State.init)).cfgObj)
        (initialLoad env dataDir (readConfig env configFile State.init))).2.2.1
      split
      · rw [hb]; exact herr
      · simp only [startMetrics, State.printf]
        split
        · simpa using hb.trans herr
        · rw [hb]; exact herr

/-- The fields starting the metrics endpoint leaves alone. -/
theorem startMetrics_frame (s : State) :
    (startMetrics s).cfg = s.cfg ∧ (startMetrics s).cfgObj = s.cfgObj ∧
    (startMetrics s).err = s.err ∧ (startMetrics s).exited = s.exited ∧
    (startMetrics s).listenCalls = s.listenCalls ∧ (startMetrics s).handlers = s.handlers ∧
    (startMetrics s).httpServers = s.httpServers ∧ (startMetrics s).loadCalls = s.loadCalls := by
  unfold startMetrics
  split <;> simp [State.printf]

/-- With a single address to bind, `sshutils.Listen` is called once, on it. -/
theorem bindListeners_single (env : Env) (addr : String) (s : State) :
    (bindListeners env [addr] s).listenCalls = s.listenCalls ++ [addr] := by
  simp only [bindListeners]
  split <;> simp [State.fatalf, State.printf]

/-- Accept results delivered as events to a running process are the accept
loop. -/
theorem run_accepted (env : Env) (configFile dataDir : String) :
    ∀ (rs : List acceptedConnection) (s : State), s.exited = none →
      run env configFile dataDir s (rs.map Event.accepted) = main_acceptLoop rs s := by
  intro rs
  induction rs with
  | nil => intro s _; rfl
  | cons r rest ih =>
    intro s h
    have h' : (main_accept r s).exited = none := by
      rw [(main_accept_frame r s).2.2.2.1]; exact h
    simp only [List.map_cons, run_cons, main_acceptLoop]
    have hs : step env configFile dataDir s (Event.accepted r) = main_accept r s := by
      simp [step, h]
    rw [hs]
    exact ih _ h'

/-- The accept loop in closed form: the handlers and the warnings it adds. -/
theorem main_acceptLoop_eq : ∀ (rs : List acceptedConnection) (s : State),
    main_acceptLoop rs s =
      { s with
        handlers := s.handlers ++
          (rs.filter (fun r => r.err = none)).map
            (fun r => ({ conn := r.conn, cfg := s.cfg } : Spawned)),
        log := s.log ++
          (rs.filter (fun r => r.err ≠ none)).map
            (fun _ => ({ logger := .warningLogger,
                         format := "Failed to accept connection: %v",
                         args := [.err s.err] } : LogEntry)) } := by
  intro rs
  induction rs with
  | nil => intro s; simp [main_acceptLoop]
  | cons r rest ih =>
    intro s
    simp only [main_acceptLoop]
    rw [ih]
    by_cases hr : r.err = none
    · simp [main_accept, hr, List.filter_cons]
    · simp [main_accept, hr, List.filter_cons, State.printf]

/-- The fields reading the config file leaves alone. -/
theorem readConfig_frame (env : Env) (configFile : String) (s : State) :
    (readConfig env configFile s).httpHandlers = s.httpHandlers ∧
    (readConfig env configFile s).httpServers = s.httpServers ∧
    (readConfig env configFile s).metricsPending = s.metricsPending := by
  unfold readConfig
  split
  · simp only []
    split <;> simp [State.fatalf, State.printf]
  · simp

/-- The fields the initial load leaves alone. -/
theorem initialLoad_frame (env : Env) (dataDir : String) (s : State) :
    (initialLoad env dataDir s).httpHandlers = s.httpHandlers ∧
    (initialLoad env dataDir s).httpServers = s.httpServers ∧
    (initialLoad env dataDir s).metricsPending = s.metricsPending := by
  unfold initialLoad
  simp only []
  split <;> simp [State.fatalf, State.printf]

/-- A startup that leaves the process running ends with `startMetrics`, on a
running state with no handler registered and no metrics goroutine. -/
theorem main_startup_running (env : Env) (configFile dataDir : String)
    (h : (main_startup env configFile dataDir).exited = none) :
    ∃ s : State, main_startup env configFile dataDir = startMetrics s ∧ s.exited = none ∧
      s.httpHandlers = [] ∧ s.httpServers = [] ∧ s.metricsPending = false := by
  unfold main_startup at h ⊢
  simp only [] at h ⊢
  split at h
  · rename_i h1; exact absurd h h1
  · split at h
    · rename_i h2; exact absurd h h2
    · split at h
      · rename_i h3; exact absurd h h3
      · rename_i h1 h2 h3
        rw [if_neg h1, if_neg h2, if_neg h3]
        have hf := bindListeners_frame env
          (resolveListenAddresses (initialLoad env dataDir (readConfig env configFile State.init)).cfgObj)
          (initialLoad env dataDir (readConfig env configFile State.init))
        have hi := initialLoad_frame env dataDir (readConfig env configFile State.init)
        have hr := readConfig_frame env configFile State.init
        refine ⟨_, rfl, by simpa using h3, ?_, ?_, ?_⟩
        · rw [hf.2.2.2.2.2.1, hi.1, hr.1]; rfl
        · rw [hf.2.2.2.2.2.2.1, hi.2.1, hr.2.1]; rfl
        · rw [hf.2.2.2.2.2.2.2, hi.2.2, hr.2.2]; rfl

/-- What the startup leaves of the metrics endpoint: with a metrics address,
the handler registered and the goroutine started; without, neither. -/
theorem main_startup_metrics (env : Env) (configFile dataDir : String)
    (h : (main_startup env configFile dataDir).exited = none) :
    (main_startup env configFile dataDir).httpServers = [] ∧
    ((main_startup env configFile dataDir).cfgObj.Logging.MetricsAddress ≠ "" →
      (main_startup env configFile dataDir).httpHandlers = ["/metrics"] ∧
      (main_startup env configFile dataDir).metricsPending = true) ∧
    ((main_startup env configFile dataDir).cfgObj.Logging.MetricsAddress = "" →
      (main_startup env configFile dataDir).httpHandlers = [] ∧
      (main_startup env configFile dataDir).metricsPending = false) := by
  obtain ⟨s, hs, _, hh, hsv, hp⟩ := main_startup_running env configFile dataDir h
  rw [hs]
  refine ⟨?_, ?_, ?_⟩
  · rw [(startMetrics_frame s).2.2.2.2.2.2.1]; exact hsv
  · intro ha
    rw [(startMetrics_frame s).2.1] at ha
    simp [startMetrics, ha, State.printf, hh]
  · intro ha
    rw [(startMetrics_frame s).2.1] at ha
    simp [startMetrics, ha, hh, hp]

/-- An event other than the metrics goroutine running leaves a running
process running and does not touch the metrics goroutine or the servers. -/
theorem step_non_metrics (env : Env) (configFile dataDir : String) (s : State) (ev : Event)
    (hev : ∀ r, ev ≠ Event.metrics r) :
    (step env configFile dataDir s ev).exited = s.exited ∧
    (step env configFile dataDir s ev).metricsPending = s.metricsPending ∧
    (step env configFile dataDir s ev).httpServers = s.httpServers := by
  unfold step
  split
  · simp
  · cases ev with
    | sighup r =>
      have h := main_reload_frame env configFile dataDir r s
      exact ⟨h.2.2.1, h.2.2.2.2.2.2.2.2, h.2.2.2.2.2.2.2.1⟩
    | accepted m =>
      have h := main_accept_frame m s
      exact ⟨h.2.2.2.1, h.2.2.2.2.2.2.2, h.2.2.2.2.2.2.1⟩
    | metrics r => exact absurd rfl (hev r)

/-- Events other than the metrics goroutine running leave a running process
running and do not touch the metrics goroutine or the servers. -/
theorem run_non_metrics (env : Env) (configFile dataDir : String) :
    ∀ (evs : List Event) (s : State), (∀ ev ∈ evs, ∀ r, ev ≠ Event.metrics r) →
      (run env configFile dataDir s evs).exited = s.exited ∧
      (run env configFile dataDir s evs).metricsPending = s.metricsPending ∧
      (run env configFile dataDir s evs).httpServers = s.httpServers := by
  intro evs
  induction evs with
  | nil => intro s _; exact ⟨rfl, rfl, rfl⟩
  | cons ev evs ih =>
    intro s h
    rw [run_cons]
    have h1 := ih (step env configFile dataDir s ev) (fun ev' hm => h ev' (List.mem_cons_of_mem _ hm))
    have h2 := step_non_metrics env configFile dataDir s ev (h ev (List.mem_cons_self _ _))
    exact ⟨h1.1.trans h2.1, h1.2.1.trans h2.2.1, h1.2.2.trans h2.2.2⟩

/-- No event registers an HTTP handler; without a metrics goroutine, no event
starts an HTTP server or a metrics goroutine. -/
theorem step_no_metrics (env : Env) (configFile dataDir : String) (s : State) (ev : Event) :
    (step env configFile dataDir s ev).httpHandlers = s.httpHandlers ∧
    (s.metricsPending = false →
      (step env configFile dataDir s ev).metricsPending = false ∧
      (step env configFile dataDir s ev).httpServers = s.httpServers) := by
  unfold step
  split
  · simp
  · cases ev with
    | sighup r =>
      have h := main_reload_frame env configFile dataDir r s
      exact ⟨h.2.2.2.2.2.2.1, fun hp => ⟨h.2.2.2.2.2.2.2.2.trans hp, h.2.2.2.2.2.2.2.1⟩⟩
    | accepted m =>
      have h := main_accept_frame m s
      exact ⟨h.2.2.2.2.2.1, fun hp => ⟨h.2.2.2.2.2.2.2.trans hp, h.2.2.2.2.2.2.1⟩⟩
    | metrics r =>
      refine ⟨(main_metrics_frame r s).2.2.2.2.2, fun hp => ?_⟩
      simp [main_metrics, hp]

/-- No sequence of events registers an HTTP handler; without a metrics
goroutine, none starts an HTTP server. -/
theorem run_no_metrics (env : Env) (configFile dataDir : String) :
    ∀ (evs : List Event) (s : State),
      (run env configFile dataDir s evs).httpHandlers = s.httpHandlers ∧
      (s.metricsPending = false →
        (run env configFile dataDir s evs).metricsPending = false ∧
        (run env configFile dataDir s evs).httpServers = s.httpServers) := by
  intro evs
  induction evs with
  | nil => intro s; exact ⟨rfl, fun hp => ⟨hp, rfl⟩⟩
  | cons ev evs ih =>
    intro s
    rw [run_cons]
    have h1 := ih (step env configFile dataDir s ev)
    have h2 := step_no_metrics env configFile dataDir s ev
    refine ⟨h1.1.trans h2.1, fun hp => ?_⟩
    have h3 := h2.2 hp
    have h4 := h1.2 h3.1
    exact ⟨h4.1, h4.2.trans h3.2⟩

/-- Every handler spawned holds the pointer `cfg`: one event. -/
theorem step_handlers_cfg (env : Env) (configFile dataDir : String) (s : State) (ev : Event)
    (h : ∀ x ∈ s.handlers, x.cfg = s.cfg) :
    ∀ x ∈ (step env configFile dataDir s ev).handlers, x.cfg = s.cfg := by
  unfold step
  split
  · exact h
  · cases ev with
    | sighup r =>
      simp only []
      rw [(main_reload_frame env configFile dataDir r s).2.2.2.1]; exact h
    | accepted m =>
      simp only [main_accept, State.printf]
      split
      · exact h
      · intro x hx
        simp only [List.mem_append, List.mem_singleton] at hx
        rcases hx with hx | hx
        · exact h x hx
        · rw [hx]
    | metrics r =>
      simp only []
      rw [(main_metrics_frame r s).2.2.2.1]; exact h

/-- Every handler spawned holds the pointer `cfg`: any sequence of events. -/
theorem run_handlers_cfg (env : Env) (configFile dataDir : String) :
    ∀ (evs : List Event) (s : State), (∀ x ∈ s.handlers, x.cfg = s.cfg) →
      ∀ x ∈ (run env configFile dataDir s evs).handlers, x.cfg = s.cfg := by
  intro evs
  induction evs with
  | nil => intro s h; exact h
  | cons ev evs ih =>
    intro s h
    rw [run_cons]
    have h2 := step_handlers_cfg env configFile dataDir s ev h
    have hc := (step_cfg_err env configFile dataDir s ev).1
    have h3 := ih (step env configFile dataDir s ev) (by rw [hc]; exact h2)
    rw [hc] at h3
    exact h3

/-! ## The claims -/

/-- C1: when the loaded config has no `Server.ListenAddresses` (absent, the nil
slice, or empty), the resolved listen addresses are exactly the one-element
list of the legacy `Server.ListenAddress`, whatever that field holds; and a
startup that loads such a config calls `sshutils.Listen` once, on that
address. -/
theorem listen_address_fallback (c : config)
    (hempty : c.Server.ListenAddresses = none ∨ c.Server.ListenAddresses = some []) :
    resolveListenAddresses c = [c.Server.ListenAddress] ∧
    ∀ (env : Env) (configFile dataDir : String),
      (configFile = "" ∨ (env.readFile configFile).2 = none) →
      env.loader (readConfig env configFile State.init).configString dataDir = .ok c →
      (main_startup env configFile dataDir).listenCalls = [c.Server.ListenAddress] := by
  have hres : resolveListenAddresses c = [c.Server.ListenAddress] := by
    rcases hempty with h | h <;> simp [resolveListenAddresses, h, Slice.len]
  refine ⟨hres, ?_⟩
  intro env configFile dataDir hread hload
  obtain ⟨_, _, _, _, hcalls, _, _, _, _, _, hmain⟩ :=
    startup_loaded env configFile dataDir c hread hload
  rw [hmain, hres]
  have hb := bindListeners_single env c.Server.ListenAddress
    (initialLoad env dataDir (readConfig env configFile State.init))
  rw [hcalls] at hb
  split
  · simpa using hb
  · rw [(startMetrics_frame _).2.2.2.2.1]
    simpa using hb

/-- Witness for C1: the sample config loaded from the empty text has no
`ListenAddresses` and resolves to its legacy address. -/
theorem listen_address_fallback_witness :
    resolveListenAddresses demoDefault = ["127.0.0.1:2022"] ∧
    (main_startup demoEnvAll "" "/data").listenCalls = ["127.0.0.1:2022"] :=
  ⟨(listen_address_fallback demoDefault (Or.inl rfl)).1,
   (listen_address_fallback demoDefault (Or.inl rfl)).2 demoEnvAll "" "/data"
     (Or.inl rfl) rfl⟩

/-- C7: for every address `a`, a config with the legacy `Server.ListenAddress`
equal to `a` and no `Server.ListenAddresses` resolves to the same listen
addresses as a config with `Server.ListenAddresses` equal to `[a]`, whatever
the legacy field of the latter; and whenever `Server.ListenAddresses` is
non-empty the resolved list is that list itself, same elements in the same
order, so two configs that differ only in the legacy field resolve alike. -/
theorem listen_addresses_legacy_multi (a : String) :
    (∀ c₁ c₂ : config, c₁.Server.ListenAddress = a →
        Slice.len c₁.Server.ListenAddresses = 0 →
        c₂.Server.ListenAddresses = some [a] →
        resolveListenAddresses c₁ = resolveListenAddresses c₂ ∧
        resolveListenAddresses c₂ = [a]) ∧
    (∀ (c : config) (xs : List String), c.Server.ListenAddresses = some xs → xs ≠ [] →
        resolveListenAddresses c = xs ∧
        ∀ legacy : String,
          resolveListenAddresses { c with Server := { c.Server with ListenAddress := legacy } }
            = xs) := by
  constructor
  · intro c₁ c₂ h1 h2 h3
    have hr1 : resolveListenAddresses c₁ = [a] := by
      simp [resolveListenAddresses, h1, h2]
    have hr2 : resolveListenAddresses c₂ = [a] := by
      simp [resolveListenAddresses, h3, Slice.len, Slice.elems]
    exact ⟨hr1.trans hr2.symm, hr2⟩
  · intro c xs h hne
    have hpos : 0 < xs.length := List.length_pos.mpr hne
    constructor
    · simp [resolveListenAddresses, h, Slice.len, Slice.elems, hpos]
    · intro legacy
      simp [resolveListenAddresses, h, Slice.len, Slice.elems, hpos]

/-- Witness for C7: the legacy address `127.0.0.1:2022` alone against the
one-element list of it, and the two-element list of the sample config. -/
theorem listen_addresses_legacy_multi_witness :
    (resolveListenAddresses demoDefault
        = resolveListenAddresses
            { demoOther with Server := { ListenAddress := "10.0.0.1:22",
                                         ListenAddresses := some ["127.0.0.1:2022"] } } ∧
      resolveListenAddresses
            { demoOther with Server := { ListenAddress := "10.0.0.1:22",
                                         ListenAddresses := some ["127.0.0.1:2022"] } }
        = ["127.0.0.1:2022"]) ∧
    resolveListenAddresses demoCustom = ["0.0.0.0:22", "[::]:22"] :=
  ⟨(listen_addresses_legacy_multi "127.0.0.1:2022").1 demoDefault
      { demoOther with Server := { ListenAddress := "10.0.0.1:22",
                                   ListenAddresses := some ["127.0.0.1:2022"] } }
      rfl rfl rfl,
   ((listen_addresses_legacy_multi "127.0.0.1:2022").2 demoCustom ["0.0.0.0:22", "[::]:22"]
      rfl (by decide)).1⟩

/-- C6: the accept loop, over any sequence of accept results and from any
state, spawns `handleConnection` exactly once for each result with a nil
error, in order, with that result's connection and the pointer `cfg` (behind
which is the process config); for each result with a non-nil error it only
logs one warning; it changes nothing else, so the exit status is untouched:
accept errors never end the process. -/
theorem accept_loop_spawns (rs : List acceptedConnection) (s : State) :
    main_acceptLoop rs s =
      { s with
        handlers := s.handlers ++
          (rs.filter (fun r => r.err = none)).map
            (fun r => ({ conn := r.conn, cfg := s.cfg } : Spawned)),
        log := s.log ++
          (rs.filter (fun r => r.err ≠ none)).map
            (fun _ => ({ logger := .warningLogger,
                         format := "Failed to accept connection: %v",
                         args := [.err s.err] } : LogEntry)) } ∧
    (main_acceptLoop rs s).exited = s.exited ∧
    (main_acceptLoop rs s).deref s.cfg = some s.cfgObj := by
  refine ⟨main_acceptLoop_eq rs s, ?_, ?_⟩
  · rw [main_acceptLoop_eq]
  · rw [main_acceptLoop_eq]; simp [State.deref]

/-- C10, as the code has it: in every running state reached from a startup,
the warning logged for an accept result with a non-nil error carries the nil
error as its argument (the `err` of line 43), not the error of that result. -/
theorem accept_warning_argument (env : Env) (configFile dataDir : String)
    (evs : List Event) (maybeConn : acceptedConnection) (e : Error)
    (hrun : (run env configFile dataDir (main_startup env configFile dataDir) evs).exited = none)
    (herr : maybeConn.err = some e) :
    (main_accept maybeConn
        (run env configFile dataDir (main_startup env configFile dataDir) evs)).log
      = (run env configFile dataDir (main_startup env configFile dataDir) evs).log ++
          [{ logger := .warningLogger, format := "Failed to accept connection: %v",
             args := [.err none] }] ∧
    Arg.err none ≠ Arg.err maybeConn.err := by
  have h0 : (main_startup env configFile dataDir).exited = none :=
    run_running env configFile dataDir _ evs hrun
  have h1 : (run env configFile dataDir (main_startup env configFile dataDir) evs).err = none := by
    rw [(run_cfg_err env configFile dataDir evs _).2]
    exact main_startup_running_err env configFile dataDir h0
  constructor
  · simp [main_accept, herr, State.printf, h1]
  · simp [herr]

/-- Witness for C10: right after a startup without a config file, an accept
result with the error `too many open files` is logged with the nil error. -/
theorem accept_warning_argument_witness :
    (main_accept { conn := none, err := some "accept tcp: too many open files" }
        (run demoEnvAll "" "/data" (main_startup demoEnvAll "" "/data") [])).log
      = (run demoEnvAll "" "/data" (main_startup demoEnvAll "" "/data") []).log ++
          [{ logger := .warningLogger, format := "Failed to accept connection: %v",
             args := [.err none] }] ∧
    Arg.err none ≠ Arg.err (some "accept tcp: too many open files") :=
  accept_warning_argument demoEnvAll "" "/data" []
    { conn := none, err := some "accept tcp: too many open files" }
    "accept tcp: too many open files" (by decide) rfl

/-- The startup hands no connection to `handleConnection`. -/
theorem main_startup_handlers (env : Env) (configFile dataDir : String) :
    (main_startup env configFile dataDir).handlers = [] := by
  have hr : (readConfig env configFile State.init).handlers = [] := by
    unfold readConfig
    split
    · simp only []
      split <;> simp [State.fatalf, State.printf, State.init]
    · simp [State.init]
  have hi : (initialLoad env dataDir (readConfig env configFile State.init)).handlers = [] := by
    unfold initialLoad
    simp only []
    split <;> simp [State.fatalf, State.printf, hr]
  have hb : ∀ addrs, (bindListeners env addrs
      (initialLoad env dataDir (readConfig env configFile State.init))).handlers = [] := by
    intro addrs
    rw [(bindListeners_frame env addrs _).2.2.2.1]; exact hi
  unfold main_startup
  simp only []
  split
  · exact hr
  · split
    · exact hi
    · split
      · exact hb _
      · rw [(startMetrics_frame _).2.2.2.2.2.1]; exact hb _

/-- Once the startup has ended the process, no event sequence hands a
connection to `handleConnection`. -/
theorem no_handler_after_fatal_startup (env : Env) (configFile dataDir : String)
    (h : (main_startup env configFile dataDir).exited = some 1) (evs : List Event) :
    run env configFile dataDir (main_startup env configFile dataDir) evs
        = main_startup env configFile dataDir ∧
    (run env configFile dataDir (main_startup env configFile dataDir) evs).handlers = [] := by
  have hrun := run_of_exited env configFile dataDir evs (main_startup env configFile dataDir)
    (by rw [h]; simp)
  exact ⟨hrun, by rw [hrun]; exact main_startup_handlers env configFile dataDir⟩

/-- C5: unrecoverable startup errors are fatal.  (a) With a non-empty config
file path whose read fails, the startup logs one error, exits with status 1,
and `cfg.load` and `sshutils.Listen` are never called.  (b) When the initial
`cfg.load` returns an error, the startup logs it as an error, exits with
status 1, and `sshutils.Listen` is never called.  (c) When the resolved listen
address at some position `j` cannot be bound, the startup exits with status 1
at the first failing position `k ≤ j`: its last log line is the error for that
address, exactly the first `k + 1` addresses were given to `sshutils.Listen`
and `k` listeners are bound, so no address after the failing one is bound.  In
all three cases no later event hands a connection to `handleConnection`. -/
theorem startup_errors_fatal (env : Env) (configFile dataDir : String) :
    (configFile ≠ "" → (env.readFile configFile).2 ≠ none →
      (main_startup env configFile dataDir).exited = some 1 ∧
      (main_startup env configFile dataDir).log =
        [{ logger := .errorLogger, format := "Failed to read config file: %v",
           args := [.err (env.readFile configFile).2] }] ∧
      (main_startup env configFile dataDir).loadCalls = [] ∧
      (main_startup env configFile dataDir).listenCalls = [] ∧
      ∀ evs : List Event,
        (run env configFile dataDir (main_startup env configFile dataDir) evs).handlers = []) ∧
    (∀ e : Error, (configFile = "" ∨ (env.readFile configFile).2 = none) →
      env.loader (readConfig env configFile State.init).configString dataDir = .error e →
      (main_startup env configFile dataDir).exited = some 1 ∧
      (main_startup env configFile dataDir).log =
        [{ logger := .errorLogger, format := "Failed to load config: %v",
           args := [.err (some e)] }] ∧
      (main_startup env configFile dataDir).listenCalls = [] ∧
      ∀ evs : List Event,
        (run env configFile dataDir (main_startup env configFile dataDir) evs).handlers = []) ∧
    (∀ (c : config) (j : Nat) (a : String) (e : Error),
      (configFile = "" ∨ (env.readFile configFile).2 = none) →
      env.loader (readConfig env configFile State.init).configString dataDir = .ok c →
      (resolveListenAddresses c)[j]? = some a →
      env.listen j a c.sshConfig = .error e →
      (main_startup env configFile dataDir).exited = some 1 ∧
      (∃ (k : Nat) (a' : String) (e' : Error), k ≤ j ∧
        (resolveListenAddresses c)[k]? = some a' ∧
        env.listen k a' c.sshConfig = .error e' ∧
        (main_startup env configFile dataDir).listenCalls
          = (resolveListenAddresses c).take (k + 1) ∧
        (main_startup env configFile dataDir).listeners.length = k ∧
        (main_startup env configFile dataDir).log.getLast? =
          some { logger := .errorLogger,
                 format := "Failed to listen for connections on %v: %v",
                 args := [.str a', .err (some e')] }) ∧
      ∀ evs : List Event,
        (run env configFile dataDir (main_startup env configFile dataDir) evs).handlers = []) := by
  refine ⟨?_, ?_, ?_⟩
  · intro hc herr
    have hex : (main_startup env configFile dataDir).exited = some 1 := by
      simp [main_startup, readConfig, hc, herr, State.fatalf, State.printf, State.init]
    refine ⟨hex, ?_, ?_, ?_, fun evs => (no_handler_after_fatal_startup env configFile dataDir hex evs).2⟩
      <;> simp [main_startup, readConfig, hc, herr, State.fatalf, State.printf, State.init]
  · intro e hread hload
    obtain ⟨h1, _, _, h4, h5, h6, _⟩ := readConfig_ok env configFile hread
    have hs : main_startup env configFile dataDir
        = initialLoad env dataDir (readConfig env configFile State.init) := by
      simp [main_startup, h1, initialLoad, config.load, hload, State.fatalf, State.printf]
    have hex : (main_startup env configFile dataDir).exited = some 1 := by
      rw [hs]; simp [initialLoad, config.load, hload, State.fatalf, State.printf]
    refine ⟨hex, ?_, ?_, fun evs => (no_handler_after_fatal_startup env configFile dataDir hex evs).2⟩
    · rw [hs]; simp [initialLoad, config.load, hload, State.fatalf, State.printf, h4]
    · rw [hs]; simp [initialLoad, config.load, hload, State.fatalf, State.printf, h6]
  · intro c j a e hread hload hj hl
    obtain ⟨_, hcfg, _, _, hcalls, hlis, _, _, _, _, hmain⟩ :=
      startup_loaded env configFile dataDir c hread hload
    have hl' : env.listen
        ((initialLoad env dataDir (readConfig env configFile State.init)).listeners.length + j) a
        (initialLoad env dataDir (readConfig env configFile State.init)).cfgObj.sshConfig
          = .error e := by
      rw [hlis, hcfg]; simpa using hl
    obtain ⟨hex, k, a', e', hk, hak, hlk, hc2, hlen, hlog⟩ :=
      bindListeners_fail env (resolveListenAddresses c)
        (initialLoad env dataDir (readConfig env configFile State.init)) j a e hj hl'
    have hs : main_startup env configFile dataDir
        = bindListeners env (resolveListenAddresses c)
            (initialLoad env dataDir (readConfig env configFile State.init)) := by
      rw [hmain, if_pos (by rw [hex]; simp)]
    have hex' : (main_startup env configFile dataDir).exited = some 1 := by rw [hs]; exact hex
    refine ⟨hex', ⟨k, a', e', hk, hak, ?_, ?_, ?_, ?_⟩,
      fun evs => (no_handler_after_fatal_startup env configFile dataDir hex' evs).2⟩
    · rw [hlis, hcfg] at hlk; simpa using hlk
    · rw [hs, hc2, hcalls]; simp
    · rw [hs, hlen, hlis]; simp
    · rw [hs]; exact hlog

/-- Witness for C5: (a) a config file that cannot be read, (b) a config file
whose text is rejected, (c) the sample config, whose second listen address
cannot be bound. -/
theorem startup_errors_fatal_witness :
    ((main_startup demoEnv "/missing.yaml" "/data").exited = some 1 ∧
      (main_startup demoEnv "/missing.yaml" "/data").loadCalls = []) ∧
    (main_startup { demoEnv with readFile := fun _ => ("bad", none) } "/bad.yaml" "/data").exited
      = some 1 ∧
    ((main_startup demoEnv "/etc/sshesame.yaml" "/data").exited = some 1 ∧
      (main_startup demoEnv "/etc/sshesame.yaml" "/data").listenCalls
        = ["0.0.0.0:22", "[::]:22"]) :=
  ⟨⟨((startup_errors_fatal demoEnv "/missing.yaml" "/data").1 (by decide) (by decide)).1,
    ((startup_errors_fatal demoEnv "/missing.yaml" "/data").1 (by decide) (by decide)).2.2.1⟩,
   ((startup_errors_fatal { demoEnv with readFile := fun _ => ("bad", none) } "/bad.yaml"
      "/data").2.1 "yaml: unmarshal errors" (Or.inr rfl) rfl).1,
   ((startup_errors_fatal demoEnv "/etc/sshesame.yaml" "/data").2.2 demoCustom 1 "[::]:22"
      "listen tcp: address already in use" (Or.inr rfl) rfl rfl rfl).1,
   by decide⟩

/-- C2: in a running process, a SIGHUP reload changes the config only through
`cfg.load`: the object behind `cfg` afterwards is what `cfg.load` leaves, and
the pointer `cfg` itself is untouched.  A reload whose `cfg.load` returns an
error therefore leaves the active config as it was, and the process running
with the same handlers.  Round trip: a reload that loads `c` followed by a
reload whose load fails leaves `c` active. -/
theorem failing_reload_keeps_config (env : Env) (configFile dataDir : String) (s : State)
    (hs : s.exited = none) :
    (∀ readResult : String × Option Error,
      (step env configFile dataDir s (.sighup readResult)).cfgObj
        = (config.load env.loader s.cfgObj readResult.1 dataDir).1 ∧
      (step env configFile dataDir s (.sighup readResult)).cfg = s.cfg) ∧
    (∀ (readResult : String × Option Error) (e : Error),
      env.loader readResult.1 dataDir = .error e →
      (step env configFile dataDir s (.sighup readResult)).cfgObj = s.cfgObj ∧
      (step env configFile dataDir s (.sighup readResult)).exited = none ∧
      (step env configFile dataDir s (.sighup readResult)).handlers = s.handlers) ∧
    (∀ (valid invalid : String × Option Error) (c : config) (e : Error),
      env.loader valid.1 dataDir = .ok c →
      env.loader invalid.1 dataDir = .error e →
      (step env configFile dataDir s (.sighup valid)).cfgObj = c ∧
      (run env configFile dataDir s [.sighup valid, .sighup invalid]).cfgObj = c ∧
      (run env configFile dataDir s [.sighup valid, .sighup invalid]).exited = none) := by
  have hstep : ∀ (t : State) (r : String × Option Error), t.exited = none →
      step env configFile dataDir t (.sighup r) = main_reload env configFile dataDir r t := by
    intro t r ht
    simp [step, ht]
  refine ⟨?_, ?_, ?_⟩
  · intro r
    rw [hstep s r hs]
    exact ⟨main_reload_cfgObj env configFile dataDir r s,
      (main_reload_frame env configFile dataDir r s).1⟩
  · intro r e he
    rw [hstep s r hs]
    have hf := main_reload_frame env configFile dataDir r s
    refine ⟨?_, hf.2.2.1.trans hs, hf.2.2.2.1⟩
    rw [main_reload_cfgObj]
    simp [config.load, he]
  · intro valid invalid c e hv hi
    have h1 : (step env configFile dataDir s (.sighup valid)).cfgObj = c := by
      rw [hstep s valid hs, main_reload_cfgObj]
      simp [config.load, hv]
    have h1e : (step env configFile dataDir s (.sighup valid)).exited = none := by
      rw [hstep s valid hs]
      exact (main_reload_frame env configFile dataDir valid s).2.2.1.trans hs
    have hrun : run env configFile dataDir s [.sighup valid, .sighup invalid]
        = main_reload env configFile dataDir invalid
            (step env configFile dataDir s (.sighup valid)) := by
      rw [run_cons, run_cons]
      rw [hstep _ invalid h1e]
      rfl
    refine ⟨h1, ?_, ?_⟩
    · rw [hrun, main_reload_cfgObj, h1]
      simp [config.load, hi]
    · rw [hrun]
      exact (main_reload_frame env configFile dataDir invalid _).2.2.1.trans h1e

/-- Witness for C2: after a startup on the sample config, a reload that loads
the text `other` followed by a reload of a rejected text leaves the config of
`other` active. -/
theorem failing_reload_keeps_config_witness :
    (step demoEnvAll "/etc/sshesame.yaml" "/data"
        (main_startup demoEnvAll "/etc/sshesame.yaml" "/data")
        (.sighup ("rejected", none))).cfgObj = demoCustom ∧
    (run demoEnvAll "/etc/sshesame.yaml" "/data"
        (main_startup demoEnvAll "/etc/sshesame.yaml" "/data")
        [.sighup ("other", none), .sighup ("rejected", none)]).cfgObj = demoOther :=
  ⟨((failing_reload_keeps_config demoEnvAll "/etc/sshesame.yaml" "/data"
        (main_startup demoEnvAll "/etc/sshesame.yaml" "/data") (by decide)).2.1
        ("rejected", none) "yaml: unmarshal errors" rfl).1,
   ((failing_reload_keeps_config demoEnvAll "/etc/sshesame.yaml" "/data"
        (main_startup demoEnvAll "/etc/sshesame.yaml" "/data") (by decide)).2.2
        ("other", none) ("rejected", none) demoOther "yaml: unmarshal errors" rfl rfl).2.1⟩

/-- C3, as the code has it: in a running process, a reload whose
`os.ReadFile` fails logs the warning and then still calls `cfg.load`, on the
bytes `os.ReadFile` returned with the error (none when the file could not be
opened); when that text loads, its config replaces the active one. -/
theorem reload_read_failure_still_loads (env : Env) (configFile dataDir : String) (s : State)
    (bytes : String) (e : Error) (d : config)
    (hs : s.exited = none) (hload : env.loader bytes dataDir = .ok d) :
    (step env configFile dataDir s (.sighup (bytes, some e))).cfgObj = d ∧
    (step env configFile dataDir s (.sighup (bytes, some e))).loadCalls
      = s.loadCalls ++ [(bytes, dataDir)] ∧
    (step env configFile dataDir s (.sighup (bytes, some e))).log
      = s.log ++
        [{ logger := .infoLogger, format := "Reloading config due to %s",
           args := [.sig "hangup"] },
         { logger := .warningLogger, format := "Failed to read config file: %v",
           args := [.err (some e)] }] := by
  simp [step, hs, main_reload, State.printf, config.load, hload]

/-- Witness for C3: the process started on the sample config file; the file
is then removed and SIGHUP delivered.  The read fails, the empty text is
loaded, and the config of the empty text replaces the one that was active. -/
theorem reload_read_failure_still_loads_witness :
    (main_startup demoEnvAll "/etc/sshesame.yaml" "/data").cfgObj = demoCustom ∧
    (step demoEnvAll "/etc/sshesame.yaml" "/data"
        (main_startup demoEnvAll "/etc/sshesame.yaml" "/data")
        (.sighup ("", some "open /etc/sshesame.yaml: no such file or directory"))).cfgObj
      = demoDefault ∧
    demoDefault ≠ demoCustom :=
  ⟨by decide,
   (reload_read_failure_still_loads demoEnvAll "/etc/sshesame.yaml" "/data"
      (main_startup demoEnvAll "/etc/sshesame.yaml" "/data") ""
      "open /etc/sshesame.yaml: no such file or directory" demoDefault (by decide) rfl).1,
   by decide⟩

/-- C4 fails: the process started on the sample config, whose metrics address
is `127.0.0.1:9000`; `http.ListenAndServe` returns an error.  The process
exits with status 1, and a connection accepted afterwards is handed to no
handler. -/
theorem metrics_failure_ends_process :
    (main_startup demoEnvAll "/etc/sshesame.yaml" "/data").exited = none ∧
    (main_startup demoEnvAll "/etc/sshesame.yaml" "/data").cfgObj.Logging.MetricsAddress
      = "127.0.0.1:9000" ∧
    (step demoEnvAll "/etc/sshesame.yaml" "/data"
        (main_startup demoEnvAll "/etc/sshesame.yaml" "/data")
        (.metrics (some "listen tcp 127.0.0.1:9000: bind: address already in use"))).exited
      = some 1 ∧
    ¬ (step demoEnvAll "/etc/sshesame.yaml" "/data"
        (main_startup demoEnvAll "/etc/sshesame.yaml" "/data")
        (.metrics (some "listen tcp 127.0.0.1:9000: bind: address already in use"))).exited
      = none ∧
    (run demoEnvAll "/etc/sshesame.yaml" "/data"
        (main_startup demoEnvAll "/etc/sshesame.yaml" "/data")
        [.metrics (some "listen tcp 127.0.0.1:9000: bind: address already in use"),
         .accepted { conn := some 7, err := none }]).handlers = [] := by
  decide

/-- C4, amended: a failure to bind or serve the metrics endpoint is fatal.
After a startup that left the process running with a non-empty
`Logging.MetricsAddress`, and after any events other than the metrics
goroutine running, an error returned by `http.ListenAndServe` is logged by
the error logger and the process exits with status 1; no handler is spawned
by that, and no later event changes anything: no further connection is
handled. -/
theorem metrics_failure_fatal (env : Env) (configFile dataDir : String)
    (evs : List Event) (e : Error)
    (hrun : (main_startup env configFile dataDir).exited = none)
    (haddr : (main_startup env configFile dataDir).cfgObj.Logging.MetricsAddress ≠ "")
    (hevs : ∀ ev ∈ evs, ∀ r, ev ≠ Event.metrics r) :
    (run env configFile dataDir (main_startup env configFile dataDir) evs).exited = none ∧
    (step env configFile dataDir
        (run env configFile dataDir (main_startup env configFile dataDir) evs)
        (.metrics (some e))).exited = some 1 ∧
    (step env configFile dataDir
        (run env configFile dataDir (main_startup env configFile dataDir) evs)
        (.metrics (some e))).log
      = (run env configFile dataDir (main_startup env configFile dataDir) evs).log ++
          [{ logger := .errorLogger, format := "Failed to serve metrics: %v",
             args := [.err (some e)] }] ∧
    (step env configFile dataDir
        (run env configFile dataDir (main_startup env configFile dataDir) evs)
        (.metrics (some e))).handlers
      = (run env configFile dataDir (main_startup env configFile dataDir) evs).handlers ∧
    ∀ later : List Event,
      run env configFile dataDir
        (step env configFile dataDir
          (run env configFile dataDir (main_startup env configFile dataDir) evs)
          (.metrics (some e))) later
      = step env configFile dataDir
          (run env configFile dataDir (main_startup env configFile dataDir) evs)
          (.metrics (some e)) := by
  have hp0 := ((main_startup_metrics env configFile dataDir hrun).2.1 haddr).2
  obtain ⟨hex, hpend, _⟩ := run_non_metrics env configFile dataDir evs
    (main_startup env configFile dataDir) hevs
  rw [hrun] at hex
  rw [hp0] at hpend
  have hs : (step env configFile dataDir
        (run env configFile dataDir (main_startup env configFile dataDir) evs)
        (.metrics (some e))).exited = some 1 := by
    simp [step, hex, main_metrics, hpend, State.fatalf, State.printf]
  refine ⟨hex, hs, ?_, ?_, ?_⟩
  · simp [step, hex, main_metrics, hpend, State.fatalf, State.printf]
  · simp [step, hex, main_metrics, hpend, State.fatalf, State.printf]
  · intro later
    exact run_of_exited env configFile dataDir later _ (by rw [hs]; simp)

/-- Witness for C4, amended: the sample config, one connection accepted and
one reload before `http.ListenAndServe` fails. -/
theorem metrics_failure_fatal_witness :
    (step demoEnvAll "/etc/sshesame.yaml" "/data"
        (run demoEnvAll "/etc/sshesame.yaml" "/data"
          (main_startup demoEnvAll "/etc/sshesame.yaml" "/data")
          [.accepted { conn := some 7, err := none }, .sighup ("custom", none)])
        (.metrics (some "bind: address already in use"))).exited = some 1 :=
  (metrics_failure_fatal demoEnvAll "/etc/sshesame.yaml" "/data"
    [.accepted { conn := some 7, err := none }, .sighup ("custom", none)]
    "bind: address already in use" (by decide) (by decide)
    (by
      intro ev hev r
      simp only [List.mem_cons, List.mem_singleton, List.mem_nil_iff, or_false] at hev
      rcases hev with h | h <;> rw [h] <;> simp)).2.1

/-- The reload goroutine never ends the process and never touches the
metrics endpoint. -/
theorem main_reloads_frame (env : Env) (configFile dataDir : String) :
    ∀ (rs : List (String × Option Error)) (s : State),
      (main_reloads env configFile dataDir rs s).exited = s.exited ∧
      (main_reloads env configFile dataDir rs s).httpHandlers = s.httpHandlers ∧
      (main_reloads env configFile dataDir rs s).httpServers = s.httpServers ∧
      (main_reloads env configFile dataDir rs s).metricsPending = s.metricsPending := by
  intro rs
  induction rs with
  | nil => intro s; simp [main_reloads]
  | cons r rest ih =>
    intro s
    simp only [main_reloads]
    have h1 := ih (main_reload env configFile dataDir r s)
    have h2 := main_reload_frame env configFile dataDir r s
    exact ⟨h1.1.trans h2.2.2.1, h1.2.1.trans h2.2.2.2.2.2.2.1,
      h1.2.2.1.trans h2.2.2.2.2.2.2.2.1, h1.2.2.2.trans h2.2.2.2.2.2.2.2.2⟩

/-- Binding the listeners, with reloads in between, does not touch the
metrics endpoint. -/
theorem bindListenersWith_frame (env : Env) (configFile dataDir : String) :
    ∀ (addrs : List String) (during : List (List (String × Option Error))) (s : State),
      (bindListenersWith env configFile dataDir addrs during s).httpHandlers = s.httpHandlers ∧
      (bindListenersWith env configFile dataDir addrs during s).httpServers = s.httpServers ∧
      (bindListenersWith env configFile dataDir addrs during s).metricsPending
        = s.metricsPending := by
  intro addrs
  induction addrs with
  | nil => intro during s; simp [bindListenersWith]
  | cons addr rest ih =>
    intro during s
    have hr := main_reloads_frame env configFile dataDir (during.headD []) s
    simp only [bindListenersWith]
    split
    · simp only [State.fatalf, State.printf]
      exact ⟨hr.2.1, hr.2.2.1, hr.2.2.2⟩
    · rename_i listener _
      have h := ih during.tail
        ((({ main_reloads env configFile dataDir (during.headD []) s with
              listenCalls := (main_reloads env configFile dataDir (during.headD []) s).listenCalls
                ++ [addr],
              listeners := (main_reloads env configFile dataDir (during.headD []) s).listeners
                ++ [listener] } : State)).printf
            .infoLogger "Listening on %v" [.str listener.addr])
      simp only [State.printf] at h ⊢
      exact ⟨h.1.trans hr.2.1, h.2.1.trans hr.2.2.1, h.2.2.trans hr.2.2.2⟩

/-- With no reloads in between, binding the listeners is `bindListeners`. -/
theorem bindListenersWith_nil (env : Env) (configFile dataDir : String) :
    ∀ (addrs : List String) (s : State),
      bindListenersWith env configFile dataDir addrs [] s = bindListeners env addrs s := by
  intro addrs
  induction addrs with
  | nil => intro s; simp [bindListenersWith, bindListeners]
  | cons addr rest ih =>
    intro s
    simp only [bindListenersWith, bindListeners, List.headD_nil, List.tail_nil, main_reloads]
    split <;> simp_all

/-- With no reloads during startup, the startup is `main_startup`. -/
theorem main_startup_with_nil (env : Env) (configFile dataDir : String) :
    main_startup_with env configFile dataDir [] [] [] = main_startup env configFile dataDir := by
  simp only [main_startup_with, main_startup, main_reloads, bindListenersWith_nil]

/-- A startup that leaves the process running, whatever was reloaded on the
way, ends with `startMetrics` on a running state with no handler registered
and no metrics goroutine: the state at line 95. -/
theorem main_startup_with_running (env : Env) (configFile dataDir : String)
    (early : List (String × Option Error)) (during : List (List (String × Option Error)))
    (late : List (String × Option Error))
    (h : (main_startup_with env configFile dataDir early during late).exited = none) :
    ∃ s : State, main_startup_with env configFile dataDir early during late = startMetrics s ∧
      s.exited = none ∧ s.httpHandlers = [] ∧ s.httpServers = [] ∧
      s.metricsPending = false := by
  unfold main_startup_with at h ⊢
  simp only [] at h ⊢
  split at h
  · rename_i h1; exact absurd h h1
  · split at h
    · rename_i h2; exact absurd h h2
    · split at h
      · rename_i h3; exact absurd h h3
      · rename_i h1 h2 h3
        rw [if_neg h1, if_neg h2, if_neg h3]
        have hl := main_reloads_frame env configFile dataDir late
          (bindListenersWith env configFile dataDir
            (resolveListenAddresses (main_reloads env configFile dataDir early
              (initialLoad env dataDir (readConfig env configFile State.init))).cfgObj) during
            (main_reloads env configFile dataDir early
              (initialLoad env dataDir (readConfig env configFile State.init))))
        have hb := bindListenersWith_frame env configFile dataDir
          (resolveListenAddresses (main_reloads env configFile dataDir early
            (initialLoad env dataDir (readConfig env configFile State.init))).cfgObj) during
          (main_reloads env configFile dataDir early
            (initialLoad env dataDir (readConfig env configFile State.init)))
        have he := main_reloads_frame env configFile dataDir early
          (initialLoad env dataDir (readConfig env configFile State.init))
        have hi := initialLoad_frame env dataDir (readConfig env configFile State.init)
        have hr := readConfig_frame env configFile State.init
        refine ⟨_, rfl, ?_, ?_, ?_, ?_⟩
        · rw [hl.1]; simpa using h3
        · rw [hl.2.1, hb.1, he.2.1, hi.1, hr.1]; rfl
        · rw [hl.2.2.1, hb.2.1, he.2.2.1, hi.2.1, hr.2.1]; rfl
        · rw [hl.2.2.2, hb.2.2, he.2.2.2, hi.2.2, hr.2.2]; rfl

/-- Lines 95-103 on the state `main` has at line 95: with a metrics address,
the handler registered and the goroutine started; without, neither. -/
theorem startMetrics_spec (s : State) (hh : s.httpHandlers = []) (hp : s.metricsPending = false) :
    (s.cfgObj.Logging.MetricsAddress ≠ "" →
      (startMetrics s).httpHandlers = ["/metrics"] ∧ (startMetrics s).metricsPending = true) ∧
    (s.cfgObj.Logging.MetricsAddress = "" →
      (startMetrics s).httpHandlers = [] ∧ (startMetrics s).metricsPending = false) := by
  constructor
  · intro ha; simp [startMetrics, ha, State.printf, hh]
  · intro ha; simp [startMetrics, ha, hh, hp]

/-- The metrics goroutine, when it runs in a running process, calls
`http.ListenAndServe` on the metrics address of the config active at that
moment, and is gone afterwards. -/
theorem step_metrics_pending (env : Env) (configFile dataDir : String) (s : State)
    (result : Option Error) (hs : s.exited = none) (hp : s.metricsPending = true) :
    (step env configFile dataDir s (.metrics result)).httpServers
      = s.httpServers ++ [s.cfgObj.Logging.MetricsAddress] ∧
    (step env configFile dataDir s (.metrics result)).metricsPending = false := by
  cases result with
  | none => simp [step, hs, main_metrics, hp]
  | some e => simp [step, hs, main_metrics, hp, State.fatalf, State.printf]

/-- C8 fails, twice.  First: the process started on the sample config, whose
metrics address is `127.0.0.1:9000`; a reload loads the text `other`, which
has no metrics address, before the metrics goroutine runs; the goroutine then
calls `http.ListenAndServe` on the empty address, not on `127.0.0.1:9000`.
Second: the same startup, with that reload handled between `signal.Notify`
and line 95; the config loaded at startup has a metrics address, yet no
handler is registered, no goroutine started and no server ever served. -/
theorem metrics_address_follows_reload :
    (main_startup demoEnvAll "/etc/sshesame.yaml" "/data").cfgObj.Logging.MetricsAddress
      = "127.0.0.1:9000" ∧
    (run demoEnvAll "/etc/sshesame.yaml" "/data"
        (main_startup demoEnvAll "/etc/sshesame.yaml" "/data")
        [.sighup ("other", none), .metrics none]).httpServers = [""] ∧
    (run demoEnvAll "/etc/sshesame.yaml" "/data"
        (main_startup demoEnvAll "/etc/sshesame.yaml" "/data")
        [.sighup ("other", none), .metrics none]).exited = none ∧
    (initialLoad demoEnvAll "/data"
        (readConfig demoEnvAll "/etc/sshesame.yaml" State.init)).cfgObj.Logging.MetricsAddress
      = "127.0.0.1:9000" ∧
    (main_startup_with demoEnvAll "/etc/sshesame.yaml" "/data"
        [("other", none)] [] []).exited = none ∧
    (main_startup_with demoEnvAll "/etc/sshesame.yaml" "/data"
        [("other", none)] [] []).httpHandlers = [] ∧
    (run demoEnvAll "/etc/sshesame.yaml" "/data"
        (main_startup_with demoEnvAll "/etc/sshesame.yaml" "/data" [("other", none)] [] [])
        [.metrics none]).httpServers = [] := by
  decide

/-- C8, amended: whether the metrics endpoint is served is decided once, at
line 95, by the config active at that moment, whatever was reloaded during
startup.  With the empty `Logging.MetricsAddress` no handler is registered
and no event sequence ever registers one or calls `http.ListenAndServe`.
With a non-empty address the handler `/metrics` is registered and the
goroutine is started; when it runs, after any events, it calls
`http.ListenAndServe` once, on the `Logging.MetricsAddress` of the config
active at that moment, and no later event calls it again.  That address is
the one tested at line 95 when only accept results came in between. -/
theorem metrics_endpoint_decided_at_start (env : Env) (configFile dataDir : String)
    (early : List (String × Option Error)) (during : List (List (String × Option Error)))
    (late : List (String × Option Error))
    (hrun : (main_startup_with env configFile dataDir early during late).exited = none) :
    ((main_startup_with env configFile dataDir early during late).cfgObj.Logging.MetricsAddress
        = "" →
      (main_startup_with env configFile dataDir early during late).httpHandlers = [] ∧
      (main_startup_with env configFile dataDir early during late).metricsPending = false ∧
      ∀ evs : List Event,
        (run env configFile dataDir
          (main_startup_with env configFile dataDir early during late) evs).httpHandlers = [] ∧
        (run env configFile dataDir
          (main_startup_with env configFile dataDir early during late) evs).httpServers = []) ∧
    ((main_startup_with env configFile dataDir early during late).cfgObj.Logging.MetricsAddress
        ≠ "" →
      (main_startup_with env configFile dataDir early during late).httpHandlers = ["/metrics"] ∧
      (main_startup_with env configFile dataDir early during late).metricsPending = true ∧
      (main_startup_with env configFile dataDir early during late).httpServers = [] ∧
      (∀ (evs : List Event) (result : Option Error), (∀ ev ∈ evs, ∀ r, ev ≠ Event.metrics r) →
        (run env configFile dataDir
          (main_startup_with env configFile dataDir early during late) evs).httpServers = [] ∧
        (step env configFile dataDir
            (run env configFile dataDir
              (main_startup_with env configFile dataDir early during late) evs)
            (.metrics result)).httpServers
          = [(run env configFile dataDir
              (main_startup_with env configFile dataDir early during late)
              evs).cfgObj.Logging.MetricsAddress] ∧
        ∀ later : List Event,
          (run env configFile dataDir
            (step env configFile dataDir
              (run env configFile dataDir
                (main_startup_with env configFile dataDir early during late) evs)
              (.metrics result)) later).httpServers
          = [(run env configFile dataDir
              (main_startup_with env configFile dataDir early during late)
              evs).cfgObj.Logging.MetricsAddress]) ∧
      ∀ (rs : List acceptedConnection) (result : Option Error),
        (step env configFile dataDir
            (run env configFile dataDir
              (main_startup_with env configFile dataDir early during late)
              (rs.map Event.accepted))
            (.metrics result)).httpServers
          = [(main_startup_with env configFile dataDir early during
              late).cfgObj.Logging.MetricsAddress]) := by
  obtain ⟨s, hs, hex, hh, hsv, hp⟩ :=
    main_startup_with_running env configFile dataDir early during late hrun
  have hsv' : (main_startup_with env configFile dataDir early during late).httpServers = [] := by
    rw [hs, (startMetrics_frame s).2.2.2.2.2.2.1]; exact hsv
  have hcfg : (main_startup_with env configFile dataDir early during late).cfgObj = s.cfgObj := by
    rw [hs]; exact (startMetrics_frame s).2.1
  obtain ⟨hyes, hno⟩ := startMetrics_spec s hh hp
  constructor
  · intro ha
    rw [hcfg] at ha
    have hh' : (main_startup_with env configFile dataDir early during late).httpHandlers = [] := by
      rw [hs]; exact (hno ha).1
    have hp' : (main_startup_with env configFile dataDir early during late).metricsPending
        = false := by
      rw [hs]; exact (hno ha).2
    refine ⟨hh', hp', fun evs => ?_⟩
    have h := run_no_metrics env configFile dataDir evs
      (main_startup_with env configFile dataDir early during late)
    exact ⟨h.1.trans hh', (h.2 hp').2.trans hsv'⟩
  · intro ha
    rw [hcfg] at ha
    have hh' : (main_startup_with env configFile dataDir early during late).httpHandlers
        = ["/metrics"] := by
      rw [hs]; exact (hyes ha).1
    have hp' : (main_startup_with env configFile dataDir early during late).metricsPending
        = true := by
      rw [hs]; exact (hyes ha).2
    refine ⟨hh', hp', hsv', ?_, ?_⟩
    · intro evs result hevs
      obtain ⟨h1, h2, h3⟩ := run_non_metrics env configFile dataDir evs
        (main_startup_with env configFile dataDir early during late) hevs
      rw [hrun] at h1
      rw [hp'] at h2
      rw [hsv'] at h3
      obtain ⟨h4, h5⟩ := step_metrics_pending env configFile dataDir _ result h1 h2
      rw [h3] at h4
      refine ⟨h3, by simpa using h4, fun later => ?_⟩
      have h6 := (run_no_metrics env configFile dataDir later _).2 h5
      rw [h6.2]
      simpa using h4
    · intro rs result
      have hacc : run env configFile dataDir
          (main_startup_with env configFile dataDir early during late) (rs.map Event.accepted)
          = main_acceptLoop rs (main_startup_with env configFile dataDir early during late) :=
        run_accepted env configFile dataDir rs _ hrun
      have h1 : (main_acceptLoop rs
          (main_startup_with env configFile dataDir early during late)).exited = none := by
        rw [main_acceptLoop_eq]; exact hrun
      have h2 : (main_acceptLoop rs
          (main_startup_with env configFile dataDir early during late)).metricsPending = true := by
        rw [main_acceptLoop_eq]; exact hp'
      have h3 : (main_acceptLoop rs
          (main_startup_with env configFile dataDir early during late)).httpServers = [] := by
        rw [main_acceptLoop_eq]; exact hsv'
      have h4 : (main_acceptLoop rs
          (main_startup_with env configFile dataDir early during late)).cfgObj
          = (main_startup_with env configFile dataDir early during late).cfgObj := by
        rw [main_acceptLoop_eq]
      rw [hacc, (step_metrics_pending env configFile dataDir _ result h1 h2).1, h3, h4]
      rfl

/-- Witness for C8, amended: the sample config, started with no reload on the
way; then a reload of the text `other` before the goroutine runs.  The
handler is registered, and the goroutine serves on the metrics address of
`other`, the empty one. -/
theorem metrics_endpoint_decided_at_start_witness :
    (main_startup_with demoEnvAll "/etc/sshesame.yaml" "/data" [] [] []).httpHandlers
      = ["/metrics"] ∧
    (step demoEnvAll "/etc/sshesame.yaml" "/data"
        (run demoEnvAll "/etc/sshesame.yaml" "/data"
          (main_startup_with demoEnvAll "/etc/sshesame.yaml" "/data" [] [] [])
          [.sighup ("other", none)])
        (.metrics none)).httpServers
      = [(run demoEnvAll "/etc/sshesame.yaml" "/data"
          (main_startup_with demoEnvAll "/etc/sshesame.yaml" "/data" [] [] [])
          [.sighup ("other", none)]).cfgObj.Logging.MetricsAddress] ∧
    (run demoEnvAll "/etc/sshesame.yaml" "/data"
        (main_startup_with demoEnvAll "/etc/sshesame.yaml" "/data" [("other", none)] [] [])
        [.sighup ("custom", none), .metrics none]).httpServers = [] :=
  ⟨((metrics_endpoint_decided_at_start demoEnvAll "/etc/sshesame.yaml" "/data" [] [] []
      (by decide)).2 (by decide)).1,
   (((metrics_endpoint_decided_at_start demoEnvAll "/etc/sshesame.yaml" "/data" [] [] []
      (by decide)).2 (by decide)).2.2.2.1 [.sighup ("other", none)] none
      (by
        intro ev hev r
        simp only [List.mem_singleton] at hev
        rw [hev]; simp)).2.1,
   (((metrics_endpoint_decided_at_start demoEnvAll "/etc/sshesame.yaml" "/data"
      [("other", none)] [] [] (by decide)).1 (by decide)).2.2
      [.sighup ("custom", none), .metrics none]).2⟩

/-- C9 fails: the process started on the sample config; connection 7 is
accepted and its handler is given the pointer `cfg`, through which it reads
the sample config; then a reload loads the text `other`.  The same handler now
reads the config of `other` through its pointer, not the config that was
current when its connection was accepted. -/
theorem reload_changes_config_of_open_connection :
    (step demoEnvAll "/etc/sshesame.yaml" "/data"
        (main_startup demoEnvAll "/etc/sshesame.yaml" "/data")
        (.accepted { conn := some 7, err := none })).handlers
      = [{ conn := some 7, cfg := { addr := 0 } }] ∧
    (step demoEnvAll "/etc/sshesame.yaml" "/data"
        (main_startup demoEnvAll "/etc/sshesame.yaml" "/data")
        (.accepted { conn := some 7, err := none })).deref { addr := 0 } = some demoCustom ∧
    (run demoEnvAll "/etc/sshesame.yaml" "/data"
        (main_startup demoEnvAll "/etc/sshesame.yaml" "/data")
        [.accepted { conn := some 7, err := none }, .sighup ("other", none)]).handlers
      = [{ conn := some 7, cfg := { addr := 0 } }] ∧
    (run demoEnvAll "/etc/sshesame.yaml" "/data"
        (main_startup demoEnvAll "/etc/sshesame.yaml" "/data")
        [.accepted { conn := some 7, err := none }, .sighup ("other", none)]).deref { addr := 0 }
      = some demoOther ∧
    demoOther ≠ demoCustom := by
  decide

/-- C9, amended: all handlers share the one config object.  In every running
state reached from a startup, every handler spawned so far holds the pointer
`cfg` and reads the active config through it.  A reload spawns and drops no
handler, and afterwards each of those handlers reads through its pointer what
`cfg.load` left: the newly loaded config when the load succeeded, the config
it read before when the load failed. -/
theorem handlers_share_config (env : Env) (configFile dataDir : String)
    (evs : List Event) (readResult : String × Option Error)
    (hrun : (run env configFile dataDir (main_startup env configFile dataDir) evs).exited = none) :
    (step env configFile dataDir
        (run env configFile dataDir (main_startup env configFile dataDir) evs)
        (.sighup readResult)).handlers
      = (run env configFile dataDir (main_startup env configFile dataDir) evs).handlers ∧
    ∀ x ∈ (run env configFile dataDir (main_startup env configFile dataDir) evs).handlers,
      x.cfg = (run env configFile dataDir (main_startup env configFile dataDir) evs).cfg ∧
      (run env configFile dataDir (main_startup env configFile dataDir) evs).deref x.cfg
        = some (run env configFile dataDir (main_startup env configFile dataDir) evs).cfgObj ∧
      (step env configFile dataDir
          (run env configFile dataDir (main_startup env configFile dataDir) evs)
          (.sighup readResult)).deref x.cfg
        = some (config.load env.loader
            (run env configFile dataDir (main_startup env configFile dataDir) evs).cfgObj
            readResult.1 dataDir).1 ∧
      (∀ c : config, env.loader readResult.1 dataDir = .ok c →
        (step env configFile dataDir
            (run env configFile dataDir (main_startup env configFile dataDir) evs)
            (.sighup readResult)).deref x.cfg = some c) ∧
      (∀ e : Error, env.loader readResult.1 dataDir = .error e →
        (step env configFile dataDir
            (run env configFile dataDir (main_startup env configFile dataDir) evs)
            (.sighup readResult)).deref x.cfg
          = (run env configFile dataDir (main_startup env configFile dataDir) evs).deref x.cfg) := by
  have hstep : step env configFile dataDir
        (run env configFile dataDir (main_startup env configFile dataDir) evs)
        (.sighup readResult)
      = main_reload env configFile dataDir readResult
          (run env configFile dataDir (main_startup env configFile dataDir) evs) := by
    simp [step, hrun]
  have hf := main_reload_frame env configFile dataDir readResult
    (run env configFile dataDir (main_startup env configFile dataDir) evs)
  have hobj := main_reload_cfgObj env configFile dataDir readResult
    (run env configFile dataDir (main_startup env configFile dataDir) evs)
  have hinv := run_handlers_cfg env configFile dataDir evs (main_startup env configFile dataDir)
    (by rw [main_startup_handlers]; intro x hx; simp at hx)
  have hcfg := (run_cfg_err env configFile dataDir evs (main_startup env configFile dataDir)).1
  rw [hstep]
  refine ⟨hf.2.2.2.1, fun x hx => ?_⟩
  have hx' : x.cfg = (run env configFile dataDir (main_startup env configFile dataDir) evs).cfg := by
    rw [hcfg]; exact hinv x hx
  have hd : (main_reload env configFile dataDir readResult
      (run env configFile dataDir (main_startup env configFile dataDir) evs)).deref x.cfg
        = some (config.load env.loader
            (run env configFile dataDir (main_startup env configFile dataDir) evs).cfgObj
            readResult.1 dataDir).1 := by
    simp [State.deref, hf.1, hx', hobj]
  refine ⟨hx', by simp [State.deref, hx'], hd, ?_, ?_⟩
  · intro c hc
    rw [hd]; simp [config.load, hc]
  · intro e he
    rw [hd]; simp [config.load, he, State.deref, hx']

/-- Witness for C9, amended: connection 7 accepted on the sample config, then
a reload that loads the text `other`. -/
theorem handlers_share_config_witness :
    (step demoEnvAll "/etc/sshesame.yaml" "/data"
        (run demoEnvAll "/etc/sshesame.yaml" "/data"
          (main_startup demoEnvAll "/etc/sshesame.yaml" "/data")
          [.accepted { conn := some 7, err := none }])
        (.sighup ("other", none))).deref { addr := 0 } = some demoOther :=
  ((handlers_share_config demoEnvAll "/etc/sshesame.yaml" "/data"
      [.accepted { conn := some 7, err := none }] ("other", none) (by decide)).2
    { conn := some 7, cfg := { addr := 0 } } (by decide)).2.2.2.1 demoOther rfl

end Sshesame
